import Mathlib

/-!
# Verification of the v-chat real-time membership and event-fanout subsystem

Shallow embedding of the socket core of the `v-chat` repository
(`src/server/src/socket/index.js`) and the write-path controllers that use it
(`src/server/src/controllers/message.controller.js`), together with proofs
about handshake authentication, room membership, typing fanout, disconnect
cleanup, and message fanout.
-/

set_option autoImplicit false

namespace VChat

/-- Modelled from the spec: the event kinds of `ChatEventEnum`
(`src/server/src/constants.js`, not present under `src/`); §6 of the spec
lists the defined kinds `CONNECTED`, `DISCONNECT`, `JOIN_CHAT`, `TYPING_START`,
`TYPING_STOP`, `MESSAGE_RECEIVED`, `MESSAGE_DELETE`, `NEW_CHAT`,
`UPDATE_GROUP_NAME`, `LEAVE_CHAT`, `SOCKET_ERROR`. -/
inductive ChatEvent where
  | connected
  | disconnected
  | joinChat
  | typing
  | stopTyping
  | messageReceived
  | messageDelete
  | newChat
  | updateGroupName
  | leaveChat
  | socketError
deriving DecidableEq, Repr

/-- A JavaScript value used as a room key. The code joins rooms with plain
strings (`socket.join(user._id.toString())`, `socket.join(chatId)`) but the
disconnect handler calls `socket.leave(socket.user._id)` with the raw Mongoose
`ObjectId` object. Map lookup in the room adapter compares keys by JS value
identity, under which an `ObjectId` object is never equal to a string, so the
two kinds are kept distinct. -/
inductive JsKey where
  | str (s : String)
  | objectId (s : String)
deriving DecidableEq, Repr

/-- Connection handles are opaque comparable tokens (socket ids). -/
abbrev SocketId := Nat

/-- Modelled from the spec: the Room Membership Registry (the socket.io room
adapter, which is not part of `src/`): a mapping from room key to the set of
connection handles currently joined, represented as an association list whose
member lists are duplicate-free. -/
abbrev Registry := List (JsKey × List SocketId)

/-- Modelled from the spec: `membersOf(room)` returns the current snapshot of
connection handles for the room, the empty set when the room has no entry. -/
def membersOf (reg : Registry) (room : JsKey) : List SocketId :=
  match reg with
  | [] => []
  | (r, ms) :: rest => if r = room then ms else membersOf rest room

/-- Modelled from the spec: `join(room, connection)` adds the connection handle
to the room's member set, creating the set if absent; joining a room already
joined is a no-op. -/
def joinRoom (reg : Registry) (room : JsKey) (sid : SocketId) : Registry :=
  match reg with
  | [] => [(room, [sid])]
  | (r, ms) :: rest =>
    if r = room then
      (r, if sid ∈ ms then ms else ms ++ [sid]) :: rest
    else
      (r, ms) :: joinRoom rest room sid

/-- Modelled from the spec: `leave(room, connection)` removes the handle; if
the resulting set is empty, the room entry is pruned from the registry. -/
def leaveRoom (reg : Registry) (room : JsKey) (sid : SocketId) : Registry :=
  match reg with
  | [] => []
  | (r, ms) :: rest =>
    if r = room then
      let ms' := ms.erase sid
      if ms' = [] then rest else (r, ms') :: rest
    else
      (r, ms) :: leaveRoom rest room sid

/-- A single server-to-client delivery: target connection, event kind,
payload. -/
structure Delivery where
  target : SocketId
  event : ChatEvent
  payload : String
deriving DecidableEq, Repr

/-! ## Handshake authentication (`initializeSocketIO`, socket/index.js 36-85) -/

/-- A user document of the `User` model: stable id plus profile fields, with
the sensitive fields `password` and `refreshToken` optional so that a
`select("-password -refreshToken")` projection can drop them. -/
structure UserDoc where
  id : String
  username : String
  email : String
  avatar : String
  password : Option String
  refreshToken : Option String
deriving DecidableEq, Repr

/-- The projection `.select("-password -refreshToken")` applied by the
handshake to the resolved user record (socket/index.js 53-55). -/
def selectPublic (u : UserDoc) : UserDoc :=
  { u with password := none, refreshToken := none }

/-- The credential sources of one handshake after cookie parsing:
`cookie.parse(socket.handshake.headers?.cookie || "")?.accessToken` and
`socket.handshake.auth?.token`. -/
structure Handshake where
  cookieAccessToken : Option String
  authToken : Option String
deriving DecidableEq, Repr

/-- JavaScript truthiness of an optional string: `undefined` and the empty
string are falsy (the code tests tokens with `if (!token)`). -/
def truthy : Option String → Bool
  | none => false
  | some s => s ≠ ""

/-- Token extraction of socket/index.js 41-45: start from the cookie-carried
`accessToken`; when that is falsy fall back to `socket.handshake.auth?.token`;
the result is `none` when the final value is still falsy. -/
def selectToken (h : Handshake) : Option String :=
  let token := h.cookieAccessToken
  let token := if truthy token then token else h.authToken
  if truthy token then token else none

/-- The three handshake failures of socket/index.js 47-59: no token present
(`Unauthorized`, thrown as `apiError 401 "Unauthorized handshake. Token
missing."`), `jwt.verify` rejection (`InvalidToken`, carrying the message of
the error the verifier threw), and unknown subject (`IdentityNotFound`, thrown
as `apiError 401 "Unauthenticated handshake. User not found."`). -/
inductive HandshakeError where
  | unauthorized
  | invalidToken (msg : String)
  | identityNotFound
deriving DecidableEq, Repr

/-- The `message` property of the error object each handshake failure throws. -/
def HandshakeError.message : HandshakeError → String
  | .unauthorized => "Unauthorized handshake. Token missing."
  | .invalidToken m => m
  | .identityNotFound => "Unauthenticated handshake. User not found."

/-- The external collaborators the handshake calls into: `jwt.verify` against
the access-token secret (an exception with message `m` is `.error m`, a decoded
payload is `.ok` of its `_id` subject), and `User.findById` on the user store. -/
structure AuthEnv where
  verify : String → Except String String
  findById : String → Option UserDoc

/-- The authentication part of the connection handler (socket/index.js 39-59):
extract the token, verify it, resolve the subject to a user record with the
sensitive fields excluded. -/
def authenticate (env : AuthEnv) (h : Handshake) : Except HandshakeError UserDoc :=
  match selectToken h with
  | none => .error .unauthorized
  | some t =>
    match env.verify t with
    | .error m => .error (.invalidToken m)
    | .ok subject =>
      match env.findById subject with
      | none => .error .identityNotFound
      | some u => .ok (selectPublic u)

/-- The fixed fallback text of the catch block (socket/index.js 81). -/
def socketErrorDefaultMessage : String :=
  "Something went wrong while connecting to the socket."

/-- The payload of the `SOCKET_ERROR` emit in the catch block
(socket/index.js 79-82): `error?.message || "Something went wrong while
connecting to the socket."`; under JavaScript `||`, both a missing message and
an empty-string message select the fallback. -/
def socketErrorPayload (errMessage : Option String) : String :=
  match errMessage with
  | none => socketErrorDefaultMessage
  | some m => if m = "" then socketErrorDefaultMessage else m

/-- What the connection handler did to one connecting socket: the resolved
`socket.user`, the rooms the handler joined it to, the events emitted directly
to it (event kind and optional payload), whether the inbound event handlers
were mounted (the spec's `Active` state), and whether the handler closed the
connection. -/
structure ConnResult where
  user : Option UserDoc
  rooms : List JsKey
  emitted : List (ChatEvent × Option String)
  handlersMounted : Bool
  closed : Bool
deriving DecidableEq, Repr

/-- The per-connection body of `initializeSocketIO` (socket/index.js 37-84):
on authentication success set `socket.user`, join the room keyed by
`user._id.toString()`, emit `CONNECTED`, and mount the inbound handlers; on
any thrown error emit `SOCKET_ERROR` with the catch-block payload — the catch
block does not disconnect the socket, so `closed` is `false` on both paths. -/
def connectionHandler (env : AuthEnv) (h : Handshake) : ConnResult :=
  match authenticate env h with
  | .ok u =>
    { user := some u
      rooms := [JsKey.str u.id]
      emitted := [(ChatEvent.connected, none)]
      handlersMounted := true
      closed := false }
  | .error e =>
    { user := none
      rooms := []
      emitted := [(ChatEvent.socketError, some (socketErrorPayload (some e.message)))]
      handlersMounted := false
      closed := false }

/-- A connection is in the spec's `Active` state when it holds an
authenticated identity and the inbound handlers are mounted. -/
def ConnResult.isActive (r : ConnResult) : Bool :=
  r.user.isSome && r.handlersMounted

/-! ## Inbound event handlers mounted on an active socket -/

/-- The body a mounted listener runs when its event fires with a `chatId`
payload: `mountJoinChatEvent` runs `socket.join(chatId)`;
`mountParticipantTypingEvent` and `mountParticipantStoppedTypingEvent` both
run `socket.in(chatId).emit(ChatEventEnum.TYPING_EVENT, chatId)`. -/
inductive HandlerAction where
  | joinAction
  | typingBroadcast
deriving DecidableEq, Repr

/-- The listeners registered on a socket by `initializeSocketIO`
(socket/index.js 67-69), in mount order. `mountJoinChatEvent` listens on
`JOIN_CHAT_EVENT`; `mountParticipantTypingEvent` listens on `TYPING_EVENT`;
`mountParticipantStoppedTypingEvent` (socket/index.js 28-32) also listens on
`TYPING_EVENT` and also emits `TYPING_EVENT` — no listener is registered for
the stop-typing event kind. -/
def mountedHandlers : List (ChatEvent × HandlerAction) :=
  [(ChatEvent.joinChat, HandlerAction.joinAction),
   (ChatEvent.typing, HandlerAction.typingBroadcast),
   (ChatEvent.typing, HandlerAction.typingBroadcast)]

/-- Run one listener body for sender `sid` with room-id payload `chatId`.
`socket.in(chatId).emit(ev, chatId)` delivers to every member of room
`chatId` except the sender. -/
def runAction (reg : Registry) (sid : SocketId) (chatId : String) :
    HandlerAction → Registry × List Delivery
  | HandlerAction.joinAction => (joinRoom reg (JsKey.str chatId) sid, [])
  | HandlerAction.typingBroadcast =>
    (reg, ((membersOf reg (JsKey.str chatId)).filter (fun t => t ≠ sid)).map
      (fun t => { target := t, event := ChatEvent.typing, payload := chatId }))

/-- Dispatch one inbound client event on an active socket: every mounted
listener for that event kind runs, in registration order. -/
def dispatchClientEvent (reg : Registry) (sid : SocketId) (ev : ChatEvent)
    (chatId : String) : Registry × List Delivery :=
  (mountedHandlers.filter (fun p => p.1 = ev)).foldl
    (fun acc p =>
      let step := runAction acc.1 sid chatId p.2
      (step.1, acc.2 ++ step.2))
    (reg, [])

/-! ## Disconnect handler (socket/index.js 71-77) -/

/-- The `DISCONNECT_EVENT` listener registered by `initializeSocketIO`: when
`socket.user?._id` is set it runs `socket.leave(socket.user._id)` — passing
the raw `ObjectId`, not the `toString()` form used when joining — and nothing
else; no other room the socket joined is touched. -/
def onDisconnect (reg : Registry) (user : Option UserDoc) (sid : SocketId) :
    Registry :=
  match user with
  | none => reg
  | some u => leaveRoom reg (JsKey.objectId u.id) sid

/-! ## Server-side fanout (`emitSocketEvent`, socket/index.js 87-89) -/

/-- The fanout entry point `emitSocketEvent(req, roomId, event, payload)` runs
`req.app.get("io").in(roomId).emit(event, payload)`: delivery to every member
of the room (a server-side emit has no sender to exclude). -/
def emitSocketEvent (reg : Registry) (roomId : JsKey) (event : ChatEvent)
    (payload : String) : List Delivery :=
  (membersOf reg roomId).map
    (fun t => { target := t, event := event, payload := payload })

/-! ## Write-path controllers (message.controller.js) -/

/-- An exception a controller statement throws before `asyncHandler` catches
it; evaluating an identifier that is bound nowhere in the module throws a
ReferenceError naming it. -/
inductive JsException where
  | referenceError (name : String)
deriving DecidableEq, Repr

/-- The fanout loop shared by `sendMessage` and `deleteMessage`
(message.controller.js 136-145 and 201-210): for each participant of the chat,
the callback returns early when the participant's id equals
`req.user._id.toString()`; otherwise it evaluates the event-name argument
`ChatEventEnum.MESSAGE_RECEIVED_EVENT` / `ChatEventEnum.MESSAGE_DELETE_EVENT`
— but message.controller.js never imports `ChatEventEnum` (its import block,
lines 1-12, has no constants import), so that evaluation throws
`ReferenceError: ChatEventEnum is not defined`, which propagates out of the
`forEach` before the first `emitSocketEvent` call. The loop completes — with
no emit issued — only when it skips every participant. -/
def fanoutToOtherParticipants (participants : List String) (selfId : String) :
    Except JsException (List (JsKey × ChatEvent)) :=
  participants.foldl
    (fun acc p =>
      match acc with
      | .error e => .error e
      | .ok emits =>
        if p = selfId then .ok emits
        else .error (JsException.referenceError "ChatEventEnum"))
    (.ok [])

/-- The fanout `sendMessage` attempts after the message write commits
(message.controller.js 136-145): the loop throws on the first participant
other than the sender, so no `MESSAGE_RECEIVED` emit is ever issued. -/
def sendMessageEmits (participants : List String) (senderId : String) :
    Except JsException (List (JsKey × ChatEvent)) :=
  fanoutToOtherParticipants participants senderId

/-- A message document: id, sender id, owning chat id, content, the
`localPath` of each attachment, and creation time. -/
structure MessageDoc where
  id : String
  sender : String
  chat : String
  content : String
  attachments : List String
  createdAt : Nat
deriving DecidableEq, Repr

/-- A chat document: id, participant ids, optional last-message id. -/
structure ChatDoc where
  id : String
  participants : List String
  lastMessage : Option String
deriving DecidableEq, Repr

/-- The persistent state `deleteMessage` reads and writes. -/
structure Db where
  chats : List ChatDoc
  messages : List MessageDoc
deriving DecidableEq, Repr

/-- The query `Message.findOne` with filter `chat = chatId` and sort
`createdAt` descending: the stored message of the chat with the greatest
`createdAt` (first stored on ties). -/
def latestMessageFor (msgs : List MessageDoc) (chatId : String) :
    Option MessageDoc :=
  msgs.foldl
    (fun acc m =>
      if m.chat == chatId then
        match acc with
        | none => some m
        | some b => if b.createdAt < m.createdAt then some m else some b
      else acc)
    none

/-- The update `Chat.findByIdAndUpdate` that repoints `lastMessage`. -/
def setLastMessage (chats : List ChatDoc) (chatId : String)
    (lm : Option String) : List ChatDoc :=
  chats.map (fun c => if c.id == chatId then { c with lastMessage := lm } else c)

/-- Everything one `deleteMessage` request did: the HTTP outcome (error status
and message, or the deleted message document), the database afterwards, the
attachment files removed from disk, and the socket emits issued. -/
structure DeleteOutcome where
  result : Except (Nat × String) MessageDoc
  db : Db
  removedFiles : List String
  emits : List (JsKey × ChatEvent)
deriving Repr

/-- The `deleteMessage` controller (message.controller.js 154-215), in
statement order: find the chat by id with the requester among its
participants (404 otherwise); find the message by id (404 otherwise); reject
with 403 when the requester is not the message's sender; remove the local
file of every attachment; delete the message; when it was the chat's last
message, repoint `lastMessage` at the latest remaining message of the chat;
finally run the fanout loop — whose body throws on the unbound
`ChatEventEnum`, so the request ends in an error response with no
`MESSAGE_DELETE` emitted, after the deletion and file removal already
happened. When `chat.lastMessage` is null, `chat.lastMessage.toString()`
throws a TypeError with the same after-the-mutations effect. -/
def deleteMessageRun (db : Db) (requesterId chatId messageId : String) :
    DeleteOutcome :=
  match db.chats.find?
      (fun c => c.id == chatId && c.participants.contains requesterId) with
  | none =>
    { result := .error (404, "Chat does not exist")
      db := db, removedFiles := [], emits := [] }
  | some chat =>
    match db.messages.find? (fun m => m.id == messageId) with
    | none =>
      { result := .error (404, "Message does not exist")
        db := db, removedFiles := [], emits := [] }
    | some message =>
      if message.sender ≠ requesterId then
        { result := .error (403,
            "You are not the authorised to delete the message, you are not the sender")
          db := db, removedFiles := [], emits := [] }
      else
        let removedFiles := message.attachments
        let messages1 := db.messages.eraseP (fun m => m.id == messageId)
        match chat.lastMessage with
        | none =>
          { result := .error (500, "TypeError")
            db := { db with messages := messages1 }
            removedFiles := removedFiles, emits := [] }
        | some lmId =>
          let chats1 :=
            if lmId == message.id then
              setLastMessage db.chats chatId
                ((latestMessageFor messages1 chatId).map (fun m => m.id))
            else db.chats
          match fanoutToOtherParticipants chat.participants requesterId with
          | .error _ =>
            { result := .error (500, "ChatEventEnum is not defined")
              db := { chats := chats1, messages := messages1 }
              removedFiles := removedFiles
              emits := [] }
          | .ok emits =>
            { result := .ok message
              db := { chats := chats1, messages := messages1 }
              removedFiles := removedFiles
              emits := emits }

/-! ## Concrete fixtures for witnesses and counterexamples -/

/-- A stored user record, with sensitive fields present in the store. -/
def userEx : UserDoc :=
  { id := "u1", username := "alice", email := "alice@example.com"
    avatar := "av1", password := some "pwhash", refreshToken := some "rtok" }

/-- A concrete external environment: token `tok1` decodes to subject `u1`
(a stored user), token `tok2` decodes to subject `u2` (no such user), every
other token makes the verifier throw with message `invalid token`. -/
def envEx : AuthEnv :=
  { verify := fun t =>
      if t = "tok1" then .ok "u1"
      else if t = "tok2" then .ok "u2"
      else .error "invalid token"
    findById := fun s => if s = "u1" then some userEx else none }

/-- A handshake presenting no credential at all. -/
def hsNoToken : Handshake := { cookieAccessToken := none, authToken := none }

/-- A handshake carrying a valid token in the cookie. -/
def hsCookieGood : Handshake :=
  { cookieAccessToken := some "tok1", authToken := none }

/-- A handshake carrying different tokens in both sources. -/
def hsBoth : Handshake :=
  { cookieAccessToken := some "tok1", authToken := some "tok9" }

/-- A handshake whose only token fails verification. -/
def hsBadToken : Handshake :=
  { cookieAccessToken := none, authToken := some "badtok" }

/-- A handshake whose token verifies but whose subject is unknown. -/
def hsUnknownUser : Handshake :=
  { cookieAccessToken := some "tok2", authToken := none }

/-- The registry after connection 0 handshakes as `u1` (auto-join of room
`u1`) and then sends `join-chat` for room `c1`. -/
def regAfterJoins : Registry :=
  (dispatchClientEvent (joinRoom [] (JsKey.str "u1") 0) 0 ChatEvent.joinChat "c1").1

/-- A room `c1` with three connected members, used for typing fanout. -/
def regTypingEx : Registry := [(JsKey.str "c1", [0, 1, 2])]

/-- A chat with participants `u1` and `u2` whose last message is `m1`. -/
def chatEx : ChatDoc :=
  { id := "c1", participants := ["u1", "u2"], lastMessage := some "m1" }

/-- A message in `c1` sent by `u1`, with one attachment on disk. -/
def msgEx : MessageDoc :=
  { id := "m1", sender := "u1", chat := "c1", content := "hi"
    attachments := ["public/images/f1.png"], createdAt := 1 }

/-- The database holding `chatEx` and `msgEx`. -/
def dbEx : Db := { chats := [chatEx], messages := [msgEx] }

/-! ## Registry lemmas -/

/-- A room that is no entry's key has no members. -/
theorem membersOf_eq_nil_of_no_key (reg : Registry) (room : JsKey)
    (h : ∀ e ∈ reg, e.1 ≠ room) : membersOf reg room = [] := by
  induction reg with
  | nil => rfl
  | cons e rest ih =>
    have hhd : e.1 ≠ room := h e (List.mem_cons_self e rest)
    obtain ⟨r, ms⟩ := e
    simp only [membersOf, if_neg hhd]
    exact ih fun x hx => h x (List.mem_cons_of_mem _ hx)

/-- A room that is no entry's key has no lookup entry. -/
theorem lookup_eq_none_of_no_key (reg : Registry) (room : JsKey)
    (h : ∀ e ∈ reg, e.1 ≠ room) : reg.lookup room = none := by
  induction reg with
  | nil => rfl
  | cons e rest ih =>
    have hhd : e.1 ≠ room := h e (List.mem_cons_self e rest)
    obtain ⟨r, ms⟩ := e
    have hbeq : (room == r) = false :=
      beq_eq_false_iff_ne.mpr fun hrr => hhd hrr.symm
    simp only [List.lookup, hbeq]
    exact ih fun x hx => h x (List.mem_cons_of_mem _ hx)

/-- C7: for every registry, room and connection, joining the same room twice
yields the same registry — and hence the same member set — as joining once;
joining a room already joined is a no-op. -/
theorem joinRoom_idempotent (reg : Registry) (room : JsKey) (sid : SocketId) :
    joinRoom (joinRoom reg room sid) room sid = joinRoom reg room sid := by
  induction reg with
  | nil => simp [joinRoom]
  | cons e rest ih =>
    obtain ⟨r, ms⟩ := e
    by_cases hr : r = room
    · subst hr
      by_cases hm : sid ∈ ms
      · simp [joinRoom, hm]
      · simp [joinRoom, hm]
    · simp [joinRoom, hr, ih]

/-- C8: when a leave empties a room's member set, the room entry is pruned
from the registry: a subsequent membersOf returns the empty set, and no entry
keyed by the room persists. -/
theorem leaveRoom_prunes_empty_room (reg : Registry) (room : JsKey)
    (sid : SocketId) (hnd : (reg.map Prod.fst).Nodup)
    (hempty : (membersOf reg room).erase sid = []) :
    membersOf (leaveRoom reg room sid) room = [] ∧
    (leaveRoom reg room sid).lookup room = none := by
  revert hnd hempty
  induction reg with
  | nil => intro _ _; exact ⟨rfl, rfl⟩
  | cons e rest ih =>
    intro hnd hempty
    obtain ⟨r, ms⟩ := e
    have hpair :=
      List.nodup_cons.mp (show (r :: rest.map Prod.fst).Nodup from hnd)
    by_cases hr : r = room
    · subst hr
      have hempty2 : ms.erase sid = [] := by simpa [membersOf] using hempty
      have hle : leaveRoom ((r, ms) :: rest) r sid = rest := by
        simp [leaveRoom, hempty2]
      have hnotin : ∀ e ∈ rest, e.1 ≠ r := by
        intro x hx heq
        exact hpair.1 (heq ▸ List.mem_map_of_mem Prod.fst hx)
      rw [hle]
      exact ⟨membersOf_eq_nil_of_no_key rest r hnotin,
        lookup_eq_none_of_no_key rest r hnotin⟩
    · have hempty2 : (membersOf rest room).erase sid = [] := by
        simpa [membersOf, hr] using hempty
      have ih2 := ih hpair.2 hempty2
      have hbeq : (room == r) = false :=
        beq_eq_false_iff_ne.mpr fun hq => hr hq.symm
      constructor
      · simpa [leaveRoom, hr, membersOf] using ih2.1
      · simpa [leaveRoom, hr, List.lookup, hbeq] using ih2.2

/-- Witness for C8: room `c1` holds only connection 5; after connection 5
leaves, the member set is empty and the entry is gone from the registry. -/
theorem leaveRoom_prunes_empty_room_witness :
    membersOf (leaveRoom [(JsKey.str "c1", [5])] (JsKey.str "c1") 5)
      (JsKey.str "c1") = [] ∧
    (leaveRoom [(JsKey.str "c1", [5])] (JsKey.str "c1") 5).lookup
      (JsKey.str "c1") = none :=
  leaveRoom_prunes_empty_room [(JsKey.str "c1", [5])] (JsKey.str "c1") 5
    (by decide) (by decide)

/-- C1 counterexample: the handshake with no token at all — the connection
receives the SOCKET_ERROR emit and joins no room, but the catch block never
disconnects the socket, so the connection is not closed. -/
theorem failed_handshake_left_open :
    (connectionHandler envEx hsNoToken).emitted =
      [(ChatEvent.socketError, some "Unauthorized handshake. Token missing.")] ∧
    (connectionHandler envEx hsNoToken).rooms = [] ∧
    (connectionHandler envEx hsNoToken).closed = false :=
  ⟨rfl, rfl, rfl⟩

/-- C1 (amended): every handshake that fails authentication receives exactly
one distinguishable SOCKET_ERROR emit, joins no room (so it never appears in a
member set), never acquires an identity, and never reaches the Active state —
but the handler does not close the connection: it stays open after the error
emit. -/
theorem failed_handshake_isolated (env : AuthEnv) (h : Handshake)
    (e : HandshakeError) (herr : authenticate env h = .error e) :
    (connectionHandler env h).emitted =
      [(ChatEvent.socketError, some (socketErrorPayload (some e.message)))] ∧
    (connectionHandler env h).rooms = [] ∧
    (connectionHandler env h).user = none ∧
    (connectionHandler env h).isActive = false ∧
    (connectionHandler env h).closed = false := by
  simp [connectionHandler, herr, ConnResult.isActive]

/-- Witness for C1 (amended) at the tokenless handshake. -/
theorem failed_handshake_isolated_witness :
    (connectionHandler envEx hsNoToken).emitted =
      [(ChatEvent.socketError,
        some (socketErrorPayload (some (HandshakeError.unauthorized).message)))] ∧
    (connectionHandler envEx hsNoToken).rooms = [] ∧
    (connectionHandler envEx hsNoToken).user = none ∧
    (connectionHandler envEx hsNoToken).isActive = false ∧
    (connectionHandler envEx hsNoToken).closed = false :=
  failed_handshake_isolated envEx hsNoToken HandshakeError.unauthorized rfl

/-- C5: every handshake that authenticates successfully resolves an identity
with the sensitive fields (password hash, refresh token) excluded, joins the
connection to the room keyed by the identity's own id, emits CONNECTED to
that connection, and reaches the Active state. -/
theorem successful_handshake_shape (env : AuthEnv) (h : Handshake)
    (u : UserDoc) (hok : authenticate env h = .ok u) :
    u.password = none ∧ u.refreshToken = none ∧
    (connectionHandler env h).user = some u ∧
    (connectionHandler env h).rooms = [JsKey.str u.id] ∧
    (connectionHandler env h).emitted = [(ChatEvent.connected, none)] ∧
    (connectionHandler env h).isActive = true := by
  have hsens : u.password = none ∧ u.refreshToken = none := by
    unfold authenticate at hok
    cases hsel : selectToken h with
    | none => simp [hsel] at hok
    | some t =>
      simp only [hsel] at hok
      cases hv : env.verify t with
      | error m => simp [hv] at hok
      | ok s =>
        simp only [hv] at hok
        cases hf : env.findById s with
        | none => simp [hf] at hok
        | some u0 =>
          simp only [hf, Except.ok.injEq] at hok
          subst hok
          exact ⟨rfl, rfl⟩
  refine ⟨hsens.1, hsens.2, ?_, ?_, ?_, ?_⟩ <;>
    simp [connectionHandler, hok, ConnResult.isActive]

/-- Witness for C5 at the valid cookie-token handshake. -/
theorem successful_handshake_shape_witness :
    (selectPublic userEx).password = none ∧
    (selectPublic userEx).refreshToken = none ∧
    (connectionHandler envEx hsCookieGood).user = some (selectPublic userEx) ∧
    (connectionHandler envEx hsCookieGood).rooms =
      [JsKey.str (selectPublic userEx).id] ∧
    (connectionHandler envEx hsCookieGood).emitted =
      [(ChatEvent.connected, none)] ∧
    (connectionHandler envEx hsCookieGood).isActive = true :=
  successful_handshake_shape envEx hsCookieGood (selectPublic userEx) rfl

/-- C6: the bearer token is taken from the cookie when that is present
(truthy), falling back to the explicit auth-token field; a handshake with no
token fails Unauthorized, one whose token fails verification fails
InvalidToken, and one whose token resolves to no stored identity fails
IdentityNotFound. -/
theorem token_extraction_and_error_taxonomy (env : AuthEnv) (h : Handshake) :
    (truthy h.cookieAccessToken = true → selectToken h = h.cookieAccessToken) ∧
    (truthy h.cookieAccessToken = false →
      selectToken h = if truthy h.authToken then h.authToken else none) ∧
    (selectToken h = none →
      authenticate env h = .error HandshakeError.unauthorized) ∧
    (∀ t m, selectToken h = some t → env.verify t = .error m →
      authenticate env h = .error (HandshakeError.invalidToken m)) ∧
    (∀ t s, selectToken h = some t → env.verify t = .ok s →
      env.findById s = none →
      authenticate env h = .error HandshakeError.identityNotFound) := by
  refine ⟨?_, ?_, ?_, ?_, ?_⟩
  · intro hc; simp [selectToken, hc]
  · intro hc; simp [selectToken, hc]
  · intro hsel; simp [authenticate, hsel]
  · intro t m hsel hv; simp [authenticate, hsel, hv]
  · intro t s hsel hv hf; simp [authenticate, hsel, hv, hf]

/-- Witness for C6: the cookie token wins when both sources are set; the
tokenless, bad-token and unknown-subject handshakes produce the three
distinguishable failures. -/
theorem token_extraction_and_error_taxonomy_witness :
    selectToken hsBoth = hsBoth.cookieAccessToken ∧
    authenticate envEx hsNoToken = .error HandshakeError.unauthorized ∧
    authenticate envEx hsBadToken =
      .error (HandshakeError.invalidToken "invalid token") ∧
    authenticate envEx hsUnknownUser = .error HandshakeError.identityNotFound :=
  ⟨(token_extraction_and_error_taxonomy envEx hsBoth).1 (by decide),
   (token_extraction_and_error_taxonomy envEx hsNoToken).2.2.1 (by decide),
   (token_extraction_and_error_taxonomy envEx hsBadToken).2.2.2.1
     "badtok" "invalid token" (by decide) rfl,
   (token_extraction_and_error_taxonomy envEx hsUnknownUser).2.2.2.2
     "tok2" "u2" (by decide) rfl (by decide)⟩

/-- C10 counterexample: an error whose message is the empty string — the
SOCKET_ERROR payload is the fixed default text, not the error's message
string, because the JavaScript fallback fires for every falsy message. -/
theorem socket_error_payload_empty_message :
    socketErrorPayload (some "") = socketErrorDefaultMessage ∧
    socketErrorPayload (some "") ≠ "" := by
  decide

/-- C10 (amended): the SOCKET_ERROR payload is the error's message whenever
that message is a non-empty string; when the message is absent or the empty
string, the payload is the fixed default text. -/
theorem socket_error_payload_semantics (m : String) (hm : m ≠ "") :
    socketErrorPayload (some m) = m ∧
    socketErrorPayload none = socketErrorDefaultMessage ∧
    socketErrorPayload (some "") = socketErrorDefaultMessage := by
  simp [socketErrorPayload, hm]

/-- Witness for C10 (amended) at a concrete verifier message. -/
theorem socket_error_payload_semantics_witness :
    socketErrorPayload (some "jwt malformed") = "jwt malformed" ∧
    socketErrorPayload none = socketErrorDefaultMessage ∧
    socketErrorPayload (some "") = socketErrorDefaultMessage :=
  socket_error_payload_semantics "jwt malformed" (by decide)

/-- C2: evaluation at the failing input — in room `c1` with members 0, 1, 2,
a stop-typing event from connection 0 triggers no re-broadcast at all (no
listener is mounted for the stop-typing kind), while a typing event is
re-broadcast — twice, because both typing listeners fire — to the other
members, excluding the sender. -/
theorem stop_typing_event_not_rebroadcast :
    (dispatchClientEvent regTypingEx 0 ChatEvent.stopTyping "c1").2 = [] ∧
    (dispatchClientEvent regTypingEx 0 ChatEvent.stopTyping "c1").1 =
      regTypingEx ∧
    (dispatchClientEvent regTypingEx 0 ChatEvent.typing "c1").2 =
      [{ target := 1, event := ChatEvent.typing, payload := "c1" },
       { target := 2, event := ChatEvent.typing, payload := "c1" },
       { target := 1, event := ChatEvent.typing, payload := "c1" },
       { target := 2, event := ChatEvent.typing, payload := "c1" }] := by
  decide

/-- C3: evaluation at the failing input — connection 0 authenticated as `u1`
(auto-joined room `u1`) and then joined room `c1` via join-chat; running the
mounted disconnect handler leaves the registry unchanged: the handler only
calls leave on `socket.user._id` (the raw ObjectId, which matches no string
room key; the join had used the `toString()` form) and never touches the
joined chat rooms, so the connection is still a member of both rooms. -/
theorem disconnect_handler_leaves_memberships :
    onDisconnect regAfterJoins (some (selectPublic userEx)) 0 = regAfterJoins ∧
    membersOf regAfterJoins (JsKey.str "c1") = [0] ∧
    membersOf regAfterJoins (JsKey.str "u1") = [0] := by
  decide

/-- C4: evaluation at the failing input — chat `c1` with participants `u1`
and `u2`, sender `u1`: the fanout loop of `sendMessage` throws a
ReferenceError on the unbound `ChatEventEnum` at its first participant other
than the sender, before the first `emitSocketEvent` call, so no
MESSAGE_RECEIVED emit is issued to anyone — neither to the chat room `c1` nor
to any participant; a loop with only the sender to skip completes with no
emit either. -/
theorem message_received_never_emitted :
    sendMessageEmits ["u1", "u2"] "u1" =
      .error (JsException.referenceError "ChatEventEnum") ∧
    sendMessageEmits ["u1"] "u1" = .ok [] :=
  ⟨rfl, rfl⟩

/-- C9: a delete-message request that resolves a chat (with the requester
among its participants) and a message, but whose requester is not the
message's sender, fails with 403 and changes nothing: the database is
unchanged, no attachment file is removed, and no MESSAGE_DELETE emit is
issued. -/
theorem delete_message_non_sender_rejected (db : Db)
    (requesterId chatId messageId : String) (chat : ChatDoc)
    (message : MessageDoc)
    (hchat : db.chats.find?
      (fun c => c.id == chatId && c.participants.contains requesterId) =
      some chat)
    (hmsg : db.messages.find? (fun m => m.id == messageId) = some message)
    (hsender : message.sender ≠ requesterId) :
    deleteMessageRun db requesterId chatId messageId =
      { result := .error (403,
          "You are not the authorised to delete the message, you are not the sender")
        db := db, removedFiles := [], emits := [] } := by
  simp only [deleteMessageRun, hchat, hmsg]
  rw [if_pos hsender]

/-- Witness for C9: participant `u2` of chat `c1` asks to delete message `m1`
sent by `u1`; the request is rejected with 403 and nothing changes. -/
theorem delete_message_non_sender_rejected_witness :
    deleteMessageRun dbEx "u2" "c1" "m1" =
      { result := .error (403,
          "You are not the authorised to delete the message, you are not the sender")
        db := dbEx, removedFiles := [], emits := [] } :=
  delete_message_non_sender_rejected dbEx "u2" "c1" "m1" chatEx msgEx
    (by decide) (by decide) (by decide)

end VChat
